import Mathlib

/-!
Shallow embedding of `src/Network_SnifferX.py`, a layered packet dissector
(Ethernet → IPv4 → {ICMP, TCP, UDP}).  Byte buffers are modelled as
`List Nat` (each element a byte value); big-endian multi-byte reads mirror
`struct.unpack('!...')`.  `struct.unpack` raises on a buffer shorter than the
requested format, which we model as `Except` with a `TruncatedInput` failure
tagged with the layer; Python slicing (`data[k:]`) never fails and is modelled
with `List.drop`, which likewise never fails.  MAC/IP address rendering to
strings is display glue; the address fields keep the raw byte runs.
-/

namespace SnifferX

/-- The protocol layer at which a decode failure occurred. -/
inductive Layer where
  | ethernet
  | ipv4
  | icmp
  | tcp
  | udp
deriving DecidableEq

/-- Typed decode failure: a header read past the end of the buffer. -/
inductive DecodeFailure where
  | TruncatedInput : Layer → DecodeFailure
deriving DecidableEq

/-- Big-endian 16-bit read at byte offset `i`, as `struct.unpack('! H')`. -/
def readU16 (data : List Nat) (i : Nat) : Nat :=
  256 * data.getD i 0 + data.getD (i + 1) 0

/-- Big-endian 32-bit read at byte offset `i`, as `struct.unpack('! L')`. -/
def readU32 (data : List Nat) (i : Nat) : Nat :=
  16777216 * data.getD i 0 + 65536 * data.getD (i + 1) 0 +
    256 * data.getD (i + 2) 0 + data.getD (i + 3) 0

/-- `socket.htons` on a little-endian host: swap the two bytes of a 16-bit
value.  The source applies it to the ether_type it just unpacked big-endian. -/
def htons (x : Nat) : Nat :=
  (x % 256) * 256 + (x / 256) % 256

/-- Result of `ethernet_frame`: the 14-byte link-layer header fields plus the
residual bytes (`data[14:]`). -/
structure EthernetHeader where
  dest_mac : List Nat
  src_mac : List Nat
  eth_proto : Nat
  payload : List Nat
deriving DecidableEq

/-- `ethernet_frame(data)`: `struct.unpack('! 6s 6s H', data[:14])` (fails when
fewer than 14 bytes are available), `socket.htons` on the protocol field, and
residual `data[14:]`. -/
def ethernet_frame (data : List Nat) : Except DecodeFailure EthernetHeader :=
  if data.length < 14 then .error (.TruncatedInput .ethernet)
  else .ok { dest_mac := data.take 6
           , src_mac := (data.drop 6).take 6
           , eth_proto := htons (readU16 data 12)
           , payload := data.drop 14 }

/-- Result of `ipv4_packet`: header fields plus residual `data[header_length:]`. -/
structure Ipv4Header where
  version : Nat
  header_length : Nat
  ttl : Nat
  proto : Nat
  src : List Nat
  target : List Nat
  payload : List Nat
deriving DecidableEq

/-- `ipv4_packet(data)`: `version_header_length = data[0]`,
`version = vhl >> 4`, `header_length = (vhl & 15) * 4`,
`struct.unpack('! 8x B B 2x 4s 4s', data[:20])` (fails when fewer than
20 bytes are available), and residual `data[header_length:]` (a plain Python
slice: it does not fail when `header_length` exceeds the buffer length). -/
def ipv4_packet (data : List Nat) : Except DecodeFailure Ipv4Header :=
  if data.length < 20 then .error (.TruncatedInput .ipv4)
  else
    let version_header_length := data.getD 0 0
    let header_length := (version_header_length &&& 15) * 4
    .ok { version := version_header_length >>> 4
        , header_length := header_length
        , ttl := data.getD 8 0
        , proto := data.getD 9 0
        , src := (data.drop 12).take 4
        , target := (data.drop 16).take 4
        , payload := data.drop header_length }

/-- The six TCP flag values, each a 0/1 integer as in the source's dict. -/
structure TcpFlags where
  URG : Nat
  ACK : Nat
  PSH : Nat
  RST : Nat
  SYN : Nat
  FIN : Nat
deriving DecidableEq

/-- The flag dict built by `tcp_segment` from the offset/reserved/flags word:
each entry is a single-bit mask test on the word. -/
def tcp_flags (offset_reserved_flags : Nat) : TcpFlags :=
  { URG := (offset_reserved_flags &&& 32) >>> 5
  , ACK := (offset_reserved_flags &&& 16) >>> 4
  , PSH := (offset_reserved_flags &&& 8) >>> 3
  , RST := (offset_reserved_flags &&& 4) >>> 2
  , SYN := (offset_reserved_flags &&& 2) >>> 1
  , FIN := offset_reserved_flags &&& 1 }

/-- Result of `tcp_segment`: fixed-prefix fields plus residual `data[offset:]`. -/
structure TcpHeader where
  src_port : Nat
  dest_port : Nat
  sequence : Nat
  acknowledgment : Nat
  flags : TcpFlags
  payload : List Nat
deriving DecidableEq

/-- `tcp_segment(data)`: `struct.unpack('! H H L L H', data[:14])` (fails when
fewer than 14 bytes are available), `offset = (word >> 12) * 4`, the six
flag-bit tests, and residual `data[offset:]` (a plain Python slice: it does
not fail when `offset` exceeds the buffer length). -/
def tcp_segment (data : List Nat) : Except DecodeFailure TcpHeader :=
  if data.length < 14 then .error (.TruncatedInput .tcp)
  else
    let offset_reserved_flags := readU16 data 12
    let offset := (offset_reserved_flags >>> 12) * 4
    .ok { src_port := readU16 data 0
        , dest_port := readU16 data 2
        , sequence := readU32 data 4
        , acknowledgment := readU32 data 8
        , flags := tcp_flags offset_reserved_flags
        , payload := data.drop offset }

/-- Result of `udp_segment`: two ports, the third unpacked 16-bit value
(named `size` in the source), and residual `data[8:]`. -/
structure UdpHeader where
  src_port : Nat
  dest_port : Nat
  size : Nat
  payload : List Nat
deriving DecidableEq

/-- `udp_segment(data)`: `struct.unpack('! H H 2x H', data[:8])` (fails when
fewer than 8 bytes are available).  Note the format string: two 16-bit ports
at offsets 0–1 and 2–3, then `2x` PADS OVER offsets 4–5, and the final `H`
reads `size` from offsets 6–7.  Residual is `data[8:]`. -/
def udp_segment (data : List Nat) : Except DecodeFailure UdpHeader :=
  if data.length < 8 then .error (.TruncatedInput .udp)
  else .ok { src_port := readU16 data 0
           , dest_port := readU16 data 2
           , size := readU16 data 6
           , payload := data.drop 8 }

/-- Result of `icmp_packet`: type, code, checksum plus residual `data[4:]`. -/
structure IcmpHeader where
  icmp_type : Nat
  code : Nat
  checksum : Nat
  payload : List Nat
deriving DecidableEq

/-- `icmp_packet(data)`: `struct.unpack('! B B H', data[:4])` (fails when
fewer than 4 bytes are available), residual `data[4:]`. -/
def icmp_packet (data : List Nat) : Except DecodeFailure IcmpHeader :=
  if data.length < 4 then .error (.TruncatedInput .icmp)
  else .ok { icmp_type := data.getD 0 0
           , code := data.getD 1 0
           , checksum := readU16 data 2
           , payload := data.drop 4 }

/-- The transport-layer outcome of one dissection: one decoded header, or the
`other` arm (`else` branch of `main`) carrying the protocol number and the
raw IPv4 payload. -/
inductive Transport where
  | icmp : IcmpHeader → Transport
  | tcp : TcpHeader → Transport
  | udp : UdpHeader → Transport
  | other : Nat → List Nat → Transport
deriving DecidableEq

/-- The structured result of dissecting one frame, mirroring what `main`
decodes and prints for it: always an Ethernet header; an IPv4 header when
`eth_proto == 8`; and, exactly when IPv4 was decoded, one transport arm. -/
structure DissectionResult where
  eth : EthernetHeader
  ip : Option Ipv4Header
  transport : Option Transport
deriving DecidableEq

/-- The per-frame decoding logic of `main`'s loop body (printing stripped):
`ethernet_frame`; if `eth_proto == 8` then `ipv4_packet`; then the
`if proto == 1 / elif 6 / elif 17 / else` transport dispatch.  An exception
raised by any decoder propagates and aborts the whole dissection. -/
def dissect (raw_data : List Nat) : Except DecodeFailure DissectionResult :=
  match ethernet_frame raw_data with
  | .error e => .error e
  | .ok eth =>
    if eth.eth_proto = 8 then
      match ipv4_packet eth.payload with
      | .error e => .error e
      | .ok ip =>
        if ip.proto = 1 then
          match icmp_packet ip.payload with
          | .error e => .error e
          | .ok r => .ok { eth := eth, ip := some ip, transport := some (.icmp r) }
        else if ip.proto = 6 then
          match tcp_segment ip.payload with
          | .error e => .error e
          | .ok r => .ok { eth := eth, ip := some ip, transport := some (.tcp r) }
        else if ip.proto = 17 then
          match udp_segment ip.payload with
          | .error e => .error e
          | .ok r => .ok { eth := eth, ip := some ip, transport := some (.udp r) }
        else
          .ok { eth := eth, ip := some ip, transport := some (.other ip.proto ip.payload) }
    else .ok { eth := eth, ip := none, transport := none }

/-- How many of the six flag entries differ between two flag records. -/
def numChangedFlags (f g : TcpFlags) : Nat :=
  (if f.URG = g.URG then 0 else 1) + (if f.ACK = g.ACK then 0 else 1) +
    (if f.PSH = g.PSH then 0 else 1) + (if f.RST = g.RST then 0 else 1) +
    (if f.SYN = g.SYN then 0 else 1) + (if f.FIN = g.FIN then 0 else 1)

/-- A 14-byte Ethernet header with ether_type bytes `0x08 0x00` (IPv4). -/
def ethHdrBytes : List Nat :=
  [1, 2, 3, 4, 5, 6, 7, 8, 9, 10, 11, 12, 8, 0]

/-- A 20-byte option-free IPv4 header (version 4, header-length nibble 5,
TTL 64) carrying the given protocol number. -/
def ipv4HdrBytes (proto : Nat) : List Nat :=
  [69, 0, 0, 0, 0, 0, 0, 0, 64, proto, 0, 0, 10, 0, 0, 1, 10, 0, 0, 2]

/-- A 20-byte TCP header: ports 80 → 443, sequence 1, acknowledgment 2,
data-offset nibble 5, flags word with only SYN (value 2). -/
def tcpHdrBytes : List Nat :=
  [0, 80, 1, 187, 0, 0, 0, 1, 0, 0, 0, 2, 80, 2, 0, 0, 0, 0, 0, 0]

/-- A 12-byte UDP transport slice: ports 53 → 68, bytes 4–7 all zero (so the
declared-length field is `0x0000` whichever pair of offsets one reads it
from), then 4 payload bytes. -/
def udpBytes : List Nat :=
  [0, 53, 0, 68, 0, 0, 0, 0, 1, 2, 3, 4]

/-- The spec's 54-byte concrete scenario: Ethernet + IPv4(proto 6) + TCP(SYN). -/
def sampleTcpFrame : List Nat :=
  ethHdrBytes ++ ipv4HdrBytes 6 ++ tcpHdrBytes

/-- The full dissection of `sampleTcpFrame`. -/
def sampleTcpResult : DissectionResult :=
  { eth := { dest_mac := [1, 2, 3, 4, 5, 6]
           , src_mac := [7, 8, 9, 10, 11, 12]
           , eth_proto := 8
           , payload := ipv4HdrBytes 6 ++ tcpHdrBytes }
  , ip := some { version := 4, header_length := 20, ttl := 64, proto := 6
               , src := [10, 0, 0, 1], target := [10, 0, 0, 2]
               , payload := tcpHdrBytes }
  , transport := some (.tcp { src_port := 80, dest_port := 443
                            , sequence := 1, acknowledgment := 2
                            , flags := ⟨0, 0, 0, 0, 1, 0⟩, payload := [] }) }

/-- A 46-byte frame: Ethernet + IPv4(proto 17) + the 12-byte UDP slice. -/
def sampleUdpFrame : List Nat :=
  ethHdrBytes ++ ipv4HdrBytes 17 ++ udpBytes

/-- Truncated-at-IPv4 frame: Ethernet header + only 19 further bytes. -/
def ipv4TruncFrame : List Nat := ethHdrBytes ++ List.replicate 19 0

/-- Truncated-at-ICMP frame: IPv4 says protocol 1 but only 3 bytes follow. -/
def icmpTruncFrame : List Nat := ethHdrBytes ++ ipv4HdrBytes 1 ++ List.replicate 3 0

/-- Truncated-at-TCP frame: IPv4 says protocol 6 but only 13 bytes follow. -/
def tcpTruncFrame : List Nat := ethHdrBytes ++ ipv4HdrBytes 6 ++ List.replicate 13 0

/-- Truncated-at-UDP frame: IPv4 says protocol 17 but only 7 bytes follow. -/
def udpTruncFrame : List Nat := ethHdrBytes ++ ipv4HdrBytes 17 ++ List.replicate 7 0

lemma and_two_pow_eq (w i : Nat) : w &&& 2 ^ i = (w.testBit i).toNat * 2 ^ i := by
  apply Nat.eq_of_testBit_eq
  intro k
  rcases eq_or_ne i k with rfl | h
  · rcases hb : w.testBit i with _ | _ <;>
      simp [Nat.testBit_and, Nat.testBit_two_pow_self, hb]
  · rcases hb : w.testBit i with _ | _ <;>
      simp [Nat.testBit_and, Nat.testBit_two_pow_of_ne h, hb, Nat.testBit_mul_pow_two]

lemma and_two_pow_shiftRight_eq (w i : Nat) :
    (w &&& 2 ^ i) >>> i = (w.testBit i).toNat := by
  rw [and_two_pow_eq, Nat.shiftRight_eq_div_pow]
  exact Nat.mul_div_cancel _ (Nat.pos_pow_of_pos i (by omega))

lemma flag_bit5 (w : Nat) : (w &&& 32) >>> 5 = (w.testBit 5).toNat :=
  and_two_pow_shiftRight_eq w 5

lemma flag_bit4 (w : Nat) : (w &&& 16) >>> 4 = (w.testBit 4).toNat :=
  and_two_pow_shiftRight_eq w 4

lemma flag_bit3 (w : Nat) : (w &&& 8) >>> 3 = (w.testBit 3).toNat :=
  and_two_pow_shiftRight_eq w 3

lemma flag_bit2 (w : Nat) : (w &&& 4) >>> 2 = (w.testBit 2).toNat :=
  and_two_pow_shiftRight_eq w 2

lemma flag_bit1 (w : Nat) : (w &&& 2) >>> 1 = (w.testBit 1).toNat :=
  and_two_pow_shiftRight_eq w 1

lemma flag_bit0 (w : Nat) : w &&& 1 = (w.testBit 0).toNat := by
  have h := and_two_pow_eq w 0
  simpa using h

lemma tcp_flags_testBit (w : Nat) :
    tcp_flags w = ⟨(w.testBit 5).toNat, (w.testBit 4).toNat, (w.testBit 3).toNat,
                   (w.testBit 2).toNat, (w.testBit 1).toNat, (w.testBit 0).toNat⟩ := by
  simp only [tcp_flags, flag_bit5, flag_bit4, flag_bit3, flag_bit2, flag_bit1, flag_bit0]

lemma numChanged_flip_of_lt (w i : Nat) (h : i < 6) :
    numChangedFlags (tcp_flags w) (tcp_flags (w ^^^ 2 ^ i)) = 1 := by
  rw [tcp_flags_testBit, tcp_flags_testBit]
  simp only [numChangedFlags, Nat.testBit_xor, Nat.testBit_two_pow]
  interval_cases i <;>
    · generalize w.testBit 0 = b0
      generalize w.testBit 1 = b1
      generalize w.testBit 2 = b2
      generalize w.testBit 3 = b3
      generalize w.testBit 4 = b4
      generalize w.testBit 5 = b5
      revert b0 b1 b2 b3 b4 b5
      decide

lemma numChanged_flip_of_ge (w i : Nat) (h : 6 ≤ i) :
    numChangedFlags (tcp_flags w) (tcp_flags (w ^^^ 2 ^ i)) = 0 := by
  rw [tcp_flags_testBit, tcp_flags_testBit]
  have h0 : ¬(i = 0) := by omega
  have h1 : ¬(i = 1) := by omega
  have h2 : ¬(i = 2) := by omega
  have h3 : ¬(i = 3) := by omega
  have h4 : ¬(i = 4) := by omega
  have h5 : ¬(i = 5) := by omega
  simp only [numChangedFlags, Nat.testBit_xor, Nat.testBit_two_pow,
    decide_eq_false h0, decide_eq_false h1, decide_eq_false h2,
    decide_eq_false h3, decide_eq_false h4, decide_eq_false h5, Bool.xor_false]
  simp

lemma and_fifteen (x : Nat) : x &&& 15 = x % 16 := by
  have h4 := Nat.and_pow_two_sub_one_eq_mod x 4
  norm_num at h4
  exact h4

lemma eth_proto_eight_iff (raw : List Nat) (h14 : 14 ≤ raw.length)
    (hb : ∀ b ∈ raw, b < 256) :
    htons (readU16 raw 12) = 8 ↔ (raw.getD 12 0 = 8 ∧ raw.getD 13 0 = 0) := by
  have hm12 : raw.getD 12 0 ∈ raw := by
    rw [List.getD_eq_getElem raw 0 (show 12 < raw.length by omega)]
    exact List.getElem_mem _
  have hm13 : raw.getD 13 0 ∈ raw := by
    rw [List.getD_eq_getElem raw 0 (show 13 < raw.length by omega)]
    exact List.getElem_mem _
  have h12 : raw.getD 12 0 < 256 := hb _ hm12
  have h13 : raw.getD 13 0 < 256 := hb _ hm13
  unfold htons readU16
  have he : raw.getD (12 + 1) 0 = raw.getD 13 0 := rfl
  rw [he]
  omega

/-- C1: on an 8-byte UDP buffer, the `size` value (printed by `main` as
`Length:`) is the big-endian 16-bit integer at offsets 6–7 — the checksum
field — not the declared-length field at offsets 4–5, which the format
string's `2x` pads over.  On `[0,1, 0,2, 0,3, 0,4]` the decoder returns
`size = 4` (offsets 6–7) where the declared-length field holds `3`. -/
theorem udp_size_read_from_checksum_field :
  (∀ data : List Nat, 8 ≤ data.length →
      (udp_segment data).toOption.map UdpHeader.size =
        some (256 * data.getD 6 0 + data.getD 7 0))
  ∧ udp_segment [0, 1, 0, 2, 0, 3, 0, 4] =
      .ok { src_port := 1, dest_port := 2, size := 4, payload := [] } := by
  constructor
  · intro data h
    unfold udp_segment
    rw [if_neg (by omega)]
    rfl
  · rfl

/-- C1 witness: the general size characterization at the failing input. -/
theorem udp_size_read_from_checksum_field_witness :
  (udp_segment [0, 1, 0, 2, 0, 3, 0, 4]).toOption.map UdpHeader.size =
    some (256 * List.getD [0, 1, 0, 2, 0, 3, 0, 4] 6 0 +
      List.getD [0, 1, 0, 2, 0, 3, 0, 4] 7 0) :=
  udp_size_read_from_checksum_field.1 _ (by decide)

/-- C2 counterexample: a 20-byte input whose first byte is `0x40` (version
nibble 4, header-length nibble 0) is accepted by `ipv4_packet` and yields
`header_length = 0`, refuting `header_length_bytes ≥ 20`. -/
theorem ipv4_header_length_zero :
  (ipv4_packet [64, 0, 0, 0, 0, 0, 0, 0, 0, 0, 0, 0, 0, 0, 0, 0, 0, 0, 0, 0]).toOption.map
      Ipv4Header.header_length = some 0 := rfl

/-- C2 (amended): for every input of length ≥ 20, `ipv4_packet` succeeds and
returns `header_length_bytes = 4 × (low nibble of byte 0)`; this value is
≥ 20 exactly when the low nibble is ≥ 5 (the decoder never checks it). -/
theorem ipv4_header_length_nibble (data : List Nat) (h : 20 ≤ data.length) :
  (ipv4_packet data).toOption.map Ipv4Header.header_length =
      some ((data.getD 0 0 % 16) * 4)
  ∧ (20 ≤ (data.getD 0 0 % 16) * 4 ↔ 5 ≤ data.getD 0 0 % 16) := by
  constructor
  · unfold ipv4_packet
    rw [if_neg (by omega)]
    show some ((data.getD 0 0 &&& 15) * 4) = some ((data.getD 0 0 % 16) * 4)
    rw [and_fifteen]
  · omega

/-- C2 witness. -/
theorem ipv4_header_length_nibble_witness :
  (ipv4_packet (ipv4HdrBytes 6)).toOption.map Ipv4Header.header_length =
    some ((List.getD (ipv4HdrBytes 6) 0 0 % 16) * 4) :=
  (ipv4_header_length_nibble (ipv4HdrBytes 6) (by decide)).1

/-- C3 counterexample: a 14-byte TCP buffer whose offset nibble is 15
(`data_offset_bytes = 60 > 14`) does not fail: `tcp_segment` succeeds and
returns an empty payload. -/
theorem tcp_success_with_oversized_offset :
  tcp_segment [0, 0, 0, 0, 0, 0, 0, 0, 0, 0, 0, 0, 240, 0] =
    .ok { src_port := 0, dest_port := 0, sequence := 0, acknowledgment := 0
        , flags := ⟨0, 0, 0, 0, 0, 0⟩, payload := [] }
  ∧ (readU16 [0, 0, 0, 0, 0, 0, 0, 0, 0, 0, 0, 0, 240, 0] 12 >>> 12) * 4 = 60 :=
  ⟨rfl, rfl⟩

/-- C3 (amended): `tcp_segment` fails with `TruncatedInput` exactly when fewer
than 14 bytes remain; with ≥ 14 bytes it always succeeds, and when the derived
`data_offset_bytes` exceeds the available length the returned payload is
empty (the Python slice `data[offset:]` silently under-reads). -/
theorem tcp_truncation_iff (data : List Nat) :
  (data.length < 14 → tcp_segment data = .error (.TruncatedInput .tcp))
  ∧ (14 ≤ data.length → (tcp_segment data).toOption.isSome = true)
  ∧ (14 ≤ data.length → data.length < (readU16 data 12 >>> 12) * 4 →
      (tcp_segment data).toOption.map TcpHeader.payload = some []) := by
  refine ⟨fun h => ?_, fun h => ?_, fun h hofs => ?_⟩
  · unfold tcp_segment
    rw [if_pos h]
  · unfold tcp_segment
    rw [if_neg (by omega)]
    rfl
  · unfold tcp_segment
    rw [if_neg (by omega)]
    have hd : data.drop ((readU16 data 12 >>> 12) * 4) = [] :=
      List.drop_eq_nil_of_le (by omega)
    show some (data.drop ((readU16 data 12 >>> 12) * 4)) = some []
    rw [hd]

/-- C3 witness: the boundary at 13 and 14 bytes. -/
theorem tcp_truncation_iff_witness :
  tcp_segment (List.replicate 13 0) = .error (.TruncatedInput .tcp)
  ∧ (tcp_segment (List.replicate 14 0)).toOption.isSome = true :=
  ⟨(tcp_truncation_iff (List.replicate 13 0)).1 (by decide),
   (tcp_truncation_iff (List.replicate 14 0)).2.1 (by decide)⟩

/-- C4 counterexample: flipping bit 6 of the offset/flags word changes no
flag at all, refuting "flipping any one bit of the word changes exactly one
flag". -/
theorem tcp_flag_flip_bit6 :
  numChangedFlags (tcp_flags 0) (tcp_flags (0 ^^^ 2 ^ 6)) ≠ 1 := by decide

/-- C4 (amended): the flags returned by `tcp_segment` are those of
`tcp_flags` applied to the big-endian word at offsets 12–13; each of the six
flags equals the single-bit test of bits 5, 4, 3, 2, 1, 0 of that word;
flipping one of those six bits changes exactly one flag, while flipping any
higher bit changes no flag. -/
theorem tcp_flags_bit_independent :
  (∀ data : List Nat, 14 ≤ data.length →
      (tcp_segment data).toOption.map TcpHeader.flags =
        some (tcp_flags (readU16 data 12)))
  ∧ (∀ w : Nat,
      (tcp_flags w).URG = (w.testBit 5).toNat ∧ (tcp_flags w).ACK = (w.testBit 4).toNat ∧
      (tcp_flags w).PSH = (w.testBit 3).toNat ∧ (tcp_flags w).RST = (w.testBit 2).toNat ∧
      (tcp_flags w).SYN = (w.testBit 1).toNat ∧ (tcp_flags w).FIN = (w.testBit 0).toNat)
  ∧ (∀ w i : Nat, i < 6 → numChangedFlags (tcp_flags w) (tcp_flags (w ^^^ 2 ^ i)) = 1)
  ∧ (∀ w i : Nat, 6 ≤ i → numChangedFlags (tcp_flags w) (tcp_flags (w ^^^ 2 ^ i)) = 0) := by
  refine ⟨fun data h => ?_, fun w => ?_, numChanged_flip_of_lt, numChanged_flip_of_ge⟩
  · unfold tcp_segment
    rw [if_neg (by omega)]
    rfl
  · have ht := tcp_flags_testBit w
    rw [ht]
    exact ⟨rfl, rfl, rfl, rfl, rfl, rfl⟩

/-- C4 witness: flipping the SYN bit of word 0 changes exactly one flag. -/
theorem tcp_flags_bit_independent_witness :
  numChangedFlags (tcp_flags 0) (tcp_flags (0 ^^^ 2 ^ 1)) = 1 :=
  tcp_flags_bit_independent.2.2.1 0 1 (by decide)

/-- C5: every successful dissection decodes the Ethernet header exactly once
(the result's Ethernet component is what `ethernet_frame` returns); the IPv4
component is present iff the ether_type bytes at offsets 12–13 are
`0x08 0x00` (any other ether_type stops the chain after Ethernet); and when
IPv4 is present, exactly one transport arm is present, selected by the IPv4
protocol field (1 = ICMP, 6 = TCP, 17 = UDP, anything else the `other` arm). -/
theorem dissect_dispatch (raw : List Nat) (r : DissectionResult)
    (hb : ∀ b ∈ raw, b < 256) (h : dissect raw = .ok r) :
    ethernet_frame raw = .ok r.eth
    ∧ (r.ip.isSome ↔ (raw.getD 12 0 = 8 ∧ raw.getD 13 0 = 0))
    ∧ (r.transport.isSome ↔ r.ip.isSome)
    ∧ (∀ ip, r.ip = some ip →
        ipv4_packet r.eth.payload = .ok ip
        ∧ (ip.proto = 1 → ∃ ic, icmp_packet ip.payload = .ok ic ∧
            r.transport = some (.icmp ic))
        ∧ (ip.proto = 6 → ∃ t, tcp_segment ip.payload = .ok t ∧
            r.transport = some (.tcp t))
        ∧ (ip.proto = 17 → ∃ u, udp_segment ip.payload = .ok u ∧
            r.transport = some (.udp u))
        ∧ (ip.proto ≠ 1 → ip.proto ≠ 6 → ip.proto ≠ 17 →
            r.transport = some (.other ip.proto ip.payload))) := by
  unfold dissect at h
  cases heq : ethernet_frame raw with
  | error e =>
    rw [heq] at h
    exact Except.noConfusion h
  | ok eth =>
    simp only [heq] at h
    have h14 : 14 ≤ raw.length := by
      by_contra hlt
      unfold ethernet_frame at heq
      rw [if_pos (by omega)] at heq
      exact Except.noConfusion heq
    have hproto : eth.eth_proto = htons (readU16 raw 12) := by
      unfold ethernet_frame at heq
      rw [if_neg (by omega)] at heq
      injection heq with heq
      rw [← heq]
    by_cases hp : eth.eth_proto = 8
    · rw [if_pos hp] at h
      have hbytes : raw.getD 12 0 = 8 ∧ raw.getD 13 0 = 0 :=
        (eth_proto_eight_iff raw h14 hb).1 (hproto.symm.trans hp)
      cases hip : ipv4_packet eth.payload with
      | error e =>
        rw [hip] at h
        exact Except.noConfusion h
      | ok ip =>
        simp only [hip] at h
        by_cases h1 : ip.proto = 1
        · rw [if_pos h1] at h
          cases hic : icmp_packet ip.payload with
          | error e => rw [hic] at h; exact Except.noConfusion h
          | ok ic =>
            simp only [hic] at h
            injection h with h
            subst h
            refine ⟨rfl, ⟨fun _ => hbytes, fun _ => rfl⟩, Iff.rfl, ?_⟩
            intro ip2 hip2
            injection hip2 with hip2
            subst hip2
            exact ⟨hip, fun _ => ⟨ic, hic, rfl⟩, fun h6 => absurd h1 (by omega),
              fun h17 => absurd h1 (by omega), fun hn1 _ _ => absurd h1 hn1⟩
        · rw [if_neg h1] at h
          by_cases h6 : ip.proto = 6
          · rw [if_pos h6] at h
            cases htc : tcp_segment ip.payload with
            | error e => rw [htc] at h; exact Except.noConfusion h
            | ok t =>
              simp only [htc] at h
              injection h with h
              subst h
              refine ⟨rfl, ⟨fun _ => hbytes, fun _ => rfl⟩, Iff.rfl, ?_⟩
              intro ip2 hip2
              injection hip2 with hip2
              subst hip2
              exact ⟨hip, fun h1c => absurd h1c h1, fun _ => ⟨t, htc, rfl⟩,
                fun h17 => absurd h6 (by omega), fun _ hn6 _ => absurd h6 hn6⟩
          · rw [if_neg h6] at h
            by_cases h17 : ip.proto = 17
            · rw [if_pos h17] at h
              cases hud : udp_segment ip.payload with
              | error e => rw [hud] at h; exact Except.noConfusion h
              | ok u =>
                simp only [hud] at h
                injection h with h
                subst h
                refine ⟨rfl, ⟨fun _ => hbytes, fun _ => rfl⟩, Iff.rfl, ?_⟩
                intro ip2 hip2
                injection hip2 with hip2
                subst hip2
                exact ⟨hip, fun h1c => absurd h1c h1, fun h6c => absurd h6c h6,
                  fun _ => ⟨u, hud, rfl⟩, fun _ _ hn17 => absurd h17 hn17⟩
            · rw [if_neg h17] at h
              injection h with h
              subst h
              refine ⟨rfl, ⟨fun _ => hbytes, fun _ => rfl⟩, Iff.rfl, ?_⟩
              intro ip2 hip2
              injection hip2 with hip2
              subst hip2
              exact ⟨hip, fun h1c => absurd h1c h1, fun h6c => absurd h6c h6,
                fun h17c => absurd h17c h17, fun _ _ _ => rfl⟩
    · rw [if_neg hp] at h
      injection h with h
      subst h
      have hnb : ¬(raw.getD 12 0 = 8 ∧ raw.getD 13 0 = 0) := fun hc =>
        hp (hproto.trans ((eth_proto_eight_iff raw h14 hb).2 hc))
      refine ⟨rfl, ⟨fun hf => absurd hf (by simp), fun hc => absurd hc hnb⟩, Iff.rfl, ?_⟩
      intro ip2 hip2
      exact Option.noConfusion hip2

/-- C5 witness: the spec's 54-byte Ethernet+IPv4+TCP(SYN) scenario. -/
theorem dissect_dispatch_witness :
  ethernet_frame sampleTcpFrame = .ok sampleTcpResult.eth :=
  (dissect_dispatch sampleTcpFrame sampleTcpResult (by decide) (by rfl)).1

/-- C6: for every input of length ≥ 14, `ethernet_frame` succeeds, consumes
exactly the first 14 bytes, and returns the suffix starting at offset 14 as
the residual, whose length is the input length minus 14. -/
theorem ethernet_frame_consumes_14 (data : List Nat) (h : 14 ≤ data.length) :
  (ethernet_frame data).toOption.map EthernetHeader.payload = some (data.drop 14)
  ∧ (data.drop 14).length = data.length - 14 := by
  constructor
  · unfold ethernet_frame
    rw [if_neg (by omega)]
    rfl
  · simp

/-- C6 witness. -/
theorem ethernet_frame_consumes_14_witness :
  (ethernet_frame sampleTcpFrame).toOption.map EthernetHeader.payload =
      some (sampleTcpFrame.drop 14)
  ∧ (sampleTcpFrame.drop 14).length = sampleTcpFrame.length - 14 :=
  ethernet_frame_consumes_14 sampleTcpFrame (by decide)

/-- C7: the payload returned by `udp_segment` is always the bytes after the
8-byte header, whatever the declared-length field holds; concretely, the
46-byte frame with IPv4 protocol 17, a UDP header whose bytes 4–7 are all
zero (declared length `0x0000`), and 12 residual transport bytes dissects to
a UDP header with the 4-byte payload `[1, 2, 3, 4]`. -/
theorem udp_payload_ignores_declared_length :
  (∀ data : List Nat, 8 ≤ data.length →
      (udp_segment data).toOption.map UdpHeader.payload = some (data.drop 8))
  ∧ dissect sampleUdpFrame =
      .ok { eth := { dest_mac := [1, 2, 3, 4, 5, 6], src_mac := [7, 8, 9, 10, 11, 12]
                   , eth_proto := 8, payload := ipv4HdrBytes 17 ++ udpBytes }
          , ip := some { version := 4, header_length := 20, ttl := 64, proto := 17
                       , src := [10, 0, 0, 1], target := [10, 0, 0, 2]
                       , payload := udpBytes }
          , transport := some (.udp { src_port := 53, dest_port := 68, size := 0
                                    , payload := [1, 2, 3, 4] }) }
  ∧ udpBytes.length = 12 := by
  refine ⟨fun data h => ?_, rfl, rfl⟩
  unfold udp_segment
  rw [if_neg (by omega)]
  rfl

/-- C7 witness. -/
theorem udp_payload_ignores_declared_length_witness :
  (udp_segment udpBytes).toOption.map UdpHeader.payload = some (udpBytes.drop 8) :=
  udp_payload_ignores_declared_length.1 udpBytes (by decide)

/-- C8: at every layer, an input one byte shorter than the layer's minimum
(13 for Ethernet, 19 for IPv4, 3 for ICMP, 13 for TCP, 7 for UDP) fails with
`TruncatedInput` tagged at that layer, while the exact-minimum input
succeeds; and a truncated inner layer aborts the whole dissection with the
failure tagged at that layer. -/
theorem truncation_boundary :
  (∀ data : List Nat, data.length = 13 →
      ethernet_frame data = .error (.TruncatedInput .ethernet))
  ∧ (∀ data : List Nat, data.length = 14 → (ethernet_frame data).toOption.isSome = true)
  ∧ (∀ data : List Nat, data.length = 19 →
      ipv4_packet data = .error (.TruncatedInput .ipv4))
  ∧ (∀ data : List Nat, data.length = 20 → (ipv4_packet data).toOption.isSome = true)
  ∧ (∀ data : List Nat, data.length = 3 →
      icmp_packet data = .error (.TruncatedInput .icmp))
  ∧ (∀ data : List Nat, data.length = 4 → (icmp_packet data).toOption.isSome = true)
  ∧ (∀ data : List Nat, data.length = 13 →
      tcp_segment data = .error (.TruncatedInput .tcp))
  ∧ (∀ data : List Nat, data.length = 14 → (tcp_segment data).toOption.isSome = true)
  ∧ (∀ data : List Nat, data.length = 7 →
      udp_segment data = .error (.TruncatedInput .udp))
  ∧ (∀ data : List Nat, data.length = 8 → (udp_segment data).toOption.isSome = true)
  ∧ dissect (List.replicate 13 0) = .error (.TruncatedInput .ethernet)
  ∧ dissect ipv4TruncFrame = .error (.TruncatedInput .ipv4)
  ∧ dissect icmpTruncFrame = .error (.TruncatedInput .icmp)
  ∧ dissect tcpTruncFrame = .error (.TruncatedInput .tcp)
  ∧ dissect udpTruncFrame = .error (.TruncatedInput .udp) := by
  refine ⟨fun d h => ?_, fun d h => ?_, fun d h => ?_, fun d h => ?_, fun d h => ?_,
    fun d h => ?_, fun d h => ?_, fun d h => ?_, fun d h => ?_, fun d h => ?_,
    rfl, rfl, rfl, rfl, rfl⟩
  · unfold ethernet_frame; rw [if_pos (by omega)]
  · unfold ethernet_frame; rw [if_neg (by omega)]; rfl
  · unfold ipv4_packet; rw [if_pos (by omega)]
  · unfold ipv4_packet; rw [if_neg (by omega)]; rfl
  · unfold icmp_packet; rw [if_pos (by omega)]
  · unfold icmp_packet; rw [if_neg (by omega)]; rfl
  · unfold tcp_segment; rw [if_pos (by omega)]
  · unfold tcp_segment; rw [if_neg (by omega)]; rfl
  · unfold udp_segment; rw [if_pos (by omega)]
  · unfold udp_segment; rw [if_neg (by omega)]; rfl

/-- C8 witness: the Ethernet boundary at 13 bytes and the UDP minimum at 8. -/
theorem truncation_boundary_witness :
  ethernet_frame (List.replicate 13 0) = .error (.TruncatedInput .ethernet)
  ∧ (udp_segment (List.replicate 8 0)).toOption.isSome = true :=
  ⟨truncation_boundary.1 (List.replicate 13 0) (by decide),
   truncation_boundary.2.2.2.2.2.2.2.2.2.1 (List.replicate 8 0) (by decide)⟩

/-- C9: dissection is deterministic — two runs of the decoder chain on equal
byte buffers yield identical results; the decoders take nothing but the
buffer, so no hidden state can affect the output. -/
theorem dissect_deterministic (b1 b2 : List Nat) (h : b1 = b2) :
  dissect b1 = dissect b2 := by rw [h]

/-- C9 witness. -/
theorem dissect_deterministic_witness :
  dissect sampleTcpFrame = dissect sampleTcpFrame :=
  dissect_deterministic sampleTcpFrame sampleTcpFrame rfl

/-- C10: for every input of length ≥ 20 whose low header-length nibble is
below 5, `ipv4_packet` still succeeds; the returned payload is the suffix
starting at `header_length_bytes = 4 × nibble < 20`, so it overlaps bytes
that were decoded as fixed header fields, and with nibble 0 the payload is
the entire input, header included. -/
theorem ipv4_short_nibble_overlapping_payload (data : List Nat)
    (h20 : 20 ≤ data.length) (hn : data.getD 0 0 % 16 < 5) :
  (ipv4_packet data).toOption.map Ipv4Header.header_length =
      some ((data.getD 0 0 % 16) * 4)
  ∧ (ipv4_packet data).toOption.map Ipv4Header.payload =
      some (data.drop ((data.getD 0 0 % 16) * 4))
  ∧ (data.getD 0 0 % 16) * 4 < 20
  ∧ (data.getD 0 0 % 16 = 0 →
      (ipv4_packet data).toOption.map Ipv4Header.payload = some data) := by
  refine ⟨?_, ?_, by omega, fun h0 => ?_⟩
  · unfold ipv4_packet
    rw [if_neg (by omega)]
    show some ((data.getD 0 0 &&& 15) * 4) = some ((data.getD 0 0 % 16) * 4)
    rw [and_fifteen]
  · unfold ipv4_packet
    rw [if_neg (by omega)]
    show some (data.drop ((data.getD 0 0 &&& 15) * 4)) =
      some (data.drop ((data.getD 0 0 % 16) * 4))
    rw [and_fifteen]
  · unfold ipv4_packet
    rw [if_neg (by omega)]
    show some (data.drop ((data.getD 0 0 &&& 15) * 4)) = some data
    rw [and_fifteen, h0]
    simp

/-- C10 witness: a 20-byte packet with version nibble 4 and length nibble 0. -/
theorem ipv4_short_nibble_overlapping_payload_witness :
  (ipv4_packet [64, 0, 0, 0, 0, 0, 0, 0, 0, 0, 0, 0, 0, 0, 0, 0, 0, 0, 0, 0]).toOption.map
      Ipv4Header.payload =
    some ((List.drop ((List.getD [64, 0, 0, 0, 0, 0, 0, 0, 0, 0, 0, 0, 0, 0, 0, 0, 0, 0, 0, 0] 0 0 % 16) * 4))
      [64, 0, 0, 0, 0, 0, 0, 0, 0, 0, 0, 0, 0, 0, 0, 0, 0, 0, 0, 0]) :=
  (ipv4_short_nibble_overlapping_payload
    [64, 0, 0, 0, 0, 0, 0, 0, 0, 0, 0, 0, 0, 0, 0, 0, 0, 0, 0, 0]
    (by decide) (by decide)).2.1

end SnifferX

